import Mathlib

/-!
Shallow embedding of the request pipeline of `src/app/main.py`
(Face Detection & Embedding API).

The external collaborators (cv2 image decoding, the InsightFace analyzer,
the S3 client, the clock and the random suffix generator) are modelled as
explicit parameters / oracles; everything the handler itself computes is
translated faithfully from the Python source.
-/

namespace MuralWorker

/-- A decoded pixel grid: `img.shape[0]` is the height, `img.shape[1]` the
width (3 channels, BGR). Only the shape is relevant to the pipeline. -/
structure Img where
  height : Nat
  width : Nat
  deriving DecidableEq, Repr

/-- A bounding box `[x1, y1, x2, y2]`, after `face.bbox.astype(int)`
(the floating-point coordinates of the analyzer truncated to integers). -/
structure BBox where
  x1 : Int
  y1 : Int
  x2 : Int
  y2 : Int
  deriving DecidableEq, Repr

/-- Embedding vectors are opaque to the pipeline: the handler only copies
`face.normed_embedding` into the response, so its entries are abstract. -/
abbrev Emb := List Int

/-- One detection returned by `face_app.get`: the truncated bounding box and
the result of reading `face.normed_embedding` (`.error e` models the
attribute access raising an exception with message `e`). -/
structure Detection where
  bbox : BBox
  normed_embedding : Except String Emb

/-- The clamping performed in the loop body of `detect_faces`:
`x1 = max(0, x1); y1 = max(0, y1); x2 = min(img.shape[1], x2);
y2 = min(img.shape[0], y2)`. -/
def clampBBox (img : Img) (b : BBox) : BBox :=
  { x1 := max 0 b.x1
    y1 := max 0 b.y1
    x2 := min (img.width : Int) b.x2
    y2 := min (img.height : Int) b.y2 }

/-- Length of the numpy slice `a:b` over an axis of size `n` (positive step):
each bound is shifted by `n` when negative, then clamped into `[0, n]`, and
the length is the non-negative difference. -/
def sliceLen (n : Nat) (a b : Int) : Nat :=
  let lo : Int := if a < 0 then max 0 (a + n) else min a n
  let hi : Int := if b < 0 then max 0 (b + n) else min b n
  (hi - lo).toNat

/-- Size of `face_crop = img[y1:y2, x1:x2]`, that is `face_crop.size`: the
number of elements of the sliced array (3 channels). -/
def cropSize (img : Img) (b : BBox) : Nat :=
  sliceLen img.height b.y1 b.y2 * sliceLen img.width b.x1 b.x2 * 3

/-- Model of `read_image_from_bytes`: `cv2.imdecode` is the external decoder
(`none` models it returning `None`); on `none` the function raises a
`ValueError` carrying the message below. -/
def read_image_from_bytes (imdecode : List Nat → Option Img) (data : List Nat) :
    Except String Img :=
  match imdecode data with
  | none => .error "Não foi possível decodificar a imagem."
  | some img => .ok img

/-- One interaction of `upload_crop_to_s3` with its environment:
the `cv2.imencode` result (`none` when the success flag is false),
`int(datetime.utcnow().timestamp() * 1000)`, `uuid.uuid4().hex[:8]`, and
whether `s3_client.put_object` raises (`some e` = exception message). -/
structure S3Call where
  encoded : Option (List Nat)
  timestamp : Nat
  suffix : String
  putError : Option String

/-- An object stored in the bucket by `put_object`. -/
structure S3Object where
  bucket : String
  key : String
  body : List Nat
  contentType : String
  acl : String
  deriving DecidableEq, Repr

/-- Model of `PUBLIC_BASE_URL`, built from the bucket name and the region
exactly as the module-level constant in the source. -/
def publicBaseUrl (bucket region : String) : String :=
  "https://" ++ bucket ++ ".s3." ++ region ++ ".amazonaws.com"

/-- Model of the Python expression that strips leading and trailing slash
characters from the folder name. -/
def stripSlashes (s : String) : String :=
  String.mk (((s.toList.dropWhile (· = '/')).reverse.dropWhile (· = '/')).reverse)

/-- Model of `upload_crop_to_s3`, returning the list of objects written to the bucket
by this call together with the public URL, or the message of the exception
raised. An encode failure raises before any upload; a `put_object` failure
raises without creating the object. -/
def upload_crop_to_s3 (bucket region : String) (call : S3Call) (folder : String) :
    List S3Object × Except String String :=
  match call.encoded with
  | none => ([], .error "Erro ao codificar o crop em JPEG.")
  | some file_bytes =>
    let timestamp := call.timestamp
    let file_name := "face_" ++ toString timestamp ++ "_" ++ call.suffix ++ ".jpg"
    let safe_folder := stripSlashes folder
    let key :=
      if safe_folder ≠ "" then
        safe_folder ++ "/" ++ toString timestamp ++ "-" ++ file_name
      else
        toString timestamp ++ "-" ++ file_name
    match call.putError with
    | some e => ([], .error ("Falha ao fazer upload para S3: " ++ e))
    | none =>
      ([{ bucket := bucket, key := key, body := file_bytes,
          contentType := "image/jpeg", acl := "public-read" }],
       .ok (publicBaseUrl bucket region ++ "/" ++ key))

/-- Per-request environment: bucket configuration plus, for each detection
index, the S3 interaction the upload for that detection would perform. -/
structure Env where
  bucket : String
  region : String
  s3 : Nat → S3Call

/-- One entry of the `faces_response` list. -/
structure FaceResult where
  face_id : Nat
  bbox : BBox
  entity_path : String
  embedding : Emb
  deriving DecidableEq, Repr

/-- The per-detection loop of `detect_faces` (the body of the `try:` block):
clamp, slice, skip empty crops, upload, read the embedding, and append a
`FaceResult`. Returns the bucket contents written so far (uploads persist
even when a later step raises) together with either the assembled list or
the message of the first exception raised. -/
def processLoop (env : Env) (img : Img) :
    List Detection → Nat → List S3Object → List S3Object × Except String (List FaceResult)
  | [], _, store => (store, .ok [])
  | face :: rest, idx, store =>
    let cb := clampBBox img face.bbox
    if cropSize img cb = 0 then
      processLoop env img rest (idx + 1) store
    else
      match upload_crop_to_s3 env.bucket env.region (env.s3 idx) "faces" with
      | (objs, .error e) => (store ++ objs, .error e)
      | (objs, .ok url) =>
        match face.normed_embedding with
        | .error e => (store ++ objs, .error e)
        | .ok emb =>
          match processLoop env img rest (idx + 1) (store ++ objs) with
          | (store', .error e) => (store', .error e)
          | (store', .ok fs) =>
            (store', .ok ({ face_id := idx, bbox := cb, entity_path := url,
                            embedding := emb } :: fs))

/-- The body of an HTTP response: either an `HTTPException`
(status + detail) or the 200 `JSONResponse` assembled by the handler. -/
inductive Outcome where
  | httpError (status : Nat) (detail : String)
  | jsonOk (status : Nat) (message : String) (faces_count : Nat)
      (faces : List FaceResult)
  deriving DecidableEq, Repr

/-- The multipart upload: declared content type (`none` when absent) and the
file body read by `await file.read()`. -/
structure Request where
  content_type : Option String
  body : List Nat

/-- The content-type precheck of the handler: the declared content type is
missing, empty (falsy in Python), or does not start with the six characters
of the image family marker `image/`. -/
def badContentType : Option String → Bool
  | none => true
  | some s => s.isEmpty || !("image/".toList.isPrefixOf s.toList)

/-- The `detect_faces` handler. Returns the objects written to the bucket
during the request and either the response (`.ok`) or the message of an
exception that escaped the handler uncaught (`.error`). `imdecode` and
`analyze` are the external decoder and analyzer; `analyze` returning
`.error e` models `face_app.get` raising. -/
def detect_faces (imdecode : List Nat → Option Img)
    (analyze : Img → Except String (List Detection))
    (env : Env) (req : Request) : List S3Object × Except String Outcome :=
  if badContentType req.content_type then
    ([], .ok (.httpError 400 "Tipo de arquivo inválido. Envie uma imagem (image/*)."))
  else if req.body = [] then
    ([], .ok (.httpError 400 "Arquivo vazio."))
  else
    match read_image_from_bytes imdecode req.body with
    | .error e => ([], .ok (.httpError 400 e))
    | .ok img =>
      match analyze img with
      | .error e => ([], .error e)
      | .ok faces =>
        if faces.length = 0 then
          ([], .ok (.jsonOk 200 "Nenhum rosto detectado na imagem." 0 []))
        else
          match processLoop env img faces 0 [] with
          | (store, .error e) =>
            (store, .ok (.httpError 500
              ("Erro ao salvar rostos no S3 ou gerar embeddings: " ++ e)))
          | (store, .ok fs) =>
            (store, .ok (.jsonOk 200
              "Rostos detectados e embeddings gerados com InsightFace."
              fs.length fs))

/-- Whether reading the normalized embedding of a detection succeeds. -/
def embOk : Except String Emb → Bool
  | .ok _ => true
  | .error _ => false

/-- The crop/publish/embedding steps for detection number `i` all succeed:
the JPEG encoding succeeds, the upload does not raise, and the embedding
attribute is readable. -/
def stepOk (env : Env) (i : Nat) (d : Detection) : Prop :=
  (env.s3 i).encoded.isSome = true ∧ (env.s3 i).putError = none ∧
    embOk d.normed_embedding = true

/-- Detection number `i` either is skipped (zero-area clamped crop) or is
processed without any step raising. -/
def detOk (env : Env) (img : Img) (p : Nat × Detection) : Prop :=
  cropSize img (clampBBox img p.2.bbox) = 0 ∨ stepOk env p.1 p.2

instance (env : Env) (i : Nat) (d : Detection) : Decidable (stepOk env i d) := by
  unfold stepOk
  infer_instance

instance (env : Env) (img : Img) (p : Nat × Detection) : Decidable (detOk env img p) := by
  unfold detOk
  infer_instance

/-- Follows the words of the spec: the expected `face_id` values are the
original positions of the detections whose clamped crop is non-empty, in
analyzer output order, leaving gaps where skips occurred. -/
def specFaceIds (img : Img) : List Detection → Nat → List Nat
  | [], _ => []
  | d :: rest, idx =>
    if cropSize img (clampBBox img d.bbox) = 0 then specFaceIds img rest (idx + 1)
    else idx :: specFaceIds img rest (idx + 1)

/-- The storage key generated for one S3 interaction, written in the flat
form stated by the spec. -/
def faceKey (call : S3Call) : String :=
  "faces/" ++ toString call.timestamp ++ "-face_" ++ toString call.timestamp ++
    "_" ++ call.suffix ++ ".jpg"

/-- The object that a successful upload with interaction `env.s3 i` and
encoded bytes `bs` writes to the bucket. -/
def objOf (env : Env) (i : Nat) (bs : List Nat) : S3Object :=
  { bucket := env.bucket, key := faceKey (env.s3 i), body := bs,
    contentType := "image/jpeg", acl := "public-read" }

/-- Observation helper: the `faces` list of a 200 response, `[]` otherwise. -/
def returnedFaces : List S3Object × Except String Outcome → List FaceResult
  | (_, .ok (.jsonOk _ _ _ fs)) => fs
  | _ => []

/-- Observation helper: the HTTP status assigned by the handler, or `none`
when an exception escaped the handler uncaught. -/
def responseStatus : List S3Object × Except String Outcome → Option Nat
  | (_, .ok (.httpError s _)) => some s
  | (_, .ok (.jsonOk s _ _ _)) => some s
  | (_, .error _) => none

/-- Concrete 10 by 10 image used by witnesses and counterexamples. -/
def cImg : Img := ⟨10, 10⟩

/-- Concrete decoder that decodes every byte string to `cImg`. -/
def cDecode : List Nat → Option Img := fun _ => some cImg

/-- Concrete environment in which every S3 interaction succeeds. -/
def cEnvOk : Env := ⟨"b", "r", fun _ => ⟨some [7], 5, "abcd1234", none⟩⟩

/-- Concrete well-formed request. -/
def cReq : Request := ⟨some "image/png", [9]⟩

/-- Concrete environment whose uploads all fail at `put_object`. -/
def cEnvPutFail : Env := ⟨"b", "r", fun _ => ⟨some [7], 5, "abcd1234", some "rede caiu"⟩⟩

/-- Concrete detection with an interior, non-degenerate box. -/
def cDetGood : Detection := ⟨⟨1, 1, 4, 4⟩, .ok [1, 2]⟩

/-- Concrete detection whose clamped crop has zero area. -/
def cDetSkip : Detection := ⟨⟨0, 0, 0, 0⟩, .ok []⟩

/-- Concrete detection whose embedding attribute read raises. -/
def cDetEmbFail : Detection := ⟨⟨1, 1, 4, 4⟩, .error "embedding quebrou"⟩

/-- The face result produced for `cDetGood` in the environment `cEnvOk`. -/
def cFaceGood : FaceResult :=
  ⟨0, ⟨1, 1, 4, 4⟩, "https://b.s3.r.amazonaws.com/faces/5-face_5_abcd1234.jpg",
    [1, 2]⟩

/-! Helper lemmas. -/

theorem append_faces_slash (x : String) : "faces" ++ ("/" ++ x) = "faces/" ++ x := by
  rw [← String.append_assoc]
  rfl

theorem append_dash_face (x : String) : "-" ++ ("face_" ++ x) = "-face_" ++ x := by
  rw [← String.append_assoc]
  rfl

/-- A successful upload into the `faces` folder writes exactly one object,
whose key has the flat form `faceKey`, and returns the URL obtained by
appending the key to the public base URL. -/
theorem upload_faces_ok (bucket region : String) (call : S3Call) (bs : List Nat)
    (henc : call.encoded = some bs) (hput : call.putError = none) :
    upload_crop_to_s3 bucket region call "faces" =
      ([{ bucket := bucket, key := faceKey call, body := bs,
          contentType := "image/jpeg", acl := "public-read" }],
       .ok (publicBaseUrl bucket region ++ "/" ++ faceKey call)) := by
  have hsf : stripSlashes "faces" = "faces" := by decide
  have hne : ("faces" : String) ≠ "" := by decide
  have hkey : ("faces" ++ "/" ++ toString call.timestamp ++ "-" ++
      ("face_" ++ toString call.timestamp ++ "_" ++ call.suffix ++ ".jpg")) = faceKey call := by
    simp only [faceKey, String.append_assoc, append_faces_slash, append_dash_face]
  simp only [upload_crop_to_s3, henc, hput, hsf, hne, ne_eq, not_false_eq_true,
    if_true, ite_true]
  rw [hkey]

theorem processLoop_nil (env : Env) (img : Img) (idx : Nat) (store : List S3Object) :
    processLoop env img [] idx store = (store, .ok []) := rfl

theorem processLoop_cons_skip (env : Env) (img : Img) (face : Detection)
    (rest : List Detection) (idx : Nat) (store : List S3Object)
    (h : cropSize img (clampBBox img face.bbox) = 0) :
    processLoop env img (face :: rest) idx store =
      processLoop env img rest (idx + 1) store := by
  simp only [processLoop, h, if_true, ite_true]

theorem processLoop_cons_upload_err (env : Env) (img : Img) (face : Detection)
    (rest : List Detection) (idx : Nat) (store objs : List S3Object) (e : String)
    (h : cropSize img (clampBBox img face.bbox) ≠ 0)
    (hu : upload_crop_to_s3 env.bucket env.region (env.s3 idx) "faces" = (objs, .error e)) :
    processLoop env img (face :: rest) idx store = (store ++ objs, .error e) := by
  simp only [processLoop, h, if_false, ite_false, hu]

theorem processLoop_cons_emb_err (env : Env) (img : Img) (face : Detection)
    (rest : List Detection) (idx : Nat) (store objs : List S3Object) (url e : String)
    (h : cropSize img (clampBBox img face.bbox) ≠ 0)
    (hu : upload_crop_to_s3 env.bucket env.region (env.s3 idx) "faces" = (objs, .ok url))
    (he : face.normed_embedding = .error e) :
    processLoop env img (face :: rest) idx store = (store ++ objs, .error e) := by
  simp only [processLoop, h, if_false, ite_false, hu, he]

theorem processLoop_cons_ok (env : Env) (img : Img) (face : Detection)
    (rest : List Detection) (idx : Nat) (store objs : List S3Object) (url : String)
    (emb : Emb)
    (h : cropSize img (clampBBox img face.bbox) ≠ 0)
    (hu : upload_crop_to_s3 env.bucket env.region (env.s3 idx) "faces" = (objs, .ok url))
    (he : face.normed_embedding = .ok emb) :
    processLoop env img (face :: rest) idx store =
      match processLoop env img rest (idx + 1) (store ++ objs) with
      | (store2, .error e) => (store2, .error e)
      | (store2, .ok fs) =>
        (store2, .ok ({ face_id := idx, bbox := clampBBox img face.bbox,
                        entity_path := url, embedding := emb } :: fs)) := by
  simp only [processLoop, h, if_false, ite_false, hu, he]

theorem sliceLen_le_of_pos (n : Nat) (a b : Int) (ha : 0 ≤ a) (hb : b ≤ (n : Int))
    (hb0 : 0 ≤ b) (h : sliceLen n a b ≠ 0) : a ≤ b := by
  simp only [sliceLen] at h
  rw [if_neg (by omega), if_neg (by omega)] at h
  omega

/-- Arithmetic core of the amended bounding-box invariant: a clamped box
with a non-empty crop has non-negative lower corner, upper corner within
the image, and is properly ordered on every axis whose upper coordinate is
non-negative. -/
theorem clampBBox_bounds (img : Img) (b : BBox)
    (h : cropSize img (clampBBox img b) ≠ 0) :
    0 ≤ (clampBBox img b).x1 ∧ 0 ≤ (clampBBox img b).y1 ∧
      (clampBBox img b).x2 ≤ (img.width : Int) ∧
      (clampBBox img b).y2 ≤ (img.height : Int) ∧
      (0 ≤ (clampBBox img b).x2 → (clampBBox img b).x1 ≤ (clampBBox img b).x2) ∧
      (0 ≤ (clampBBox img b).y2 → (clampBBox img b).y1 ≤ (clampBBox img b).y2) := by
  have hx : sliceLen img.width (clampBBox img b).x1 (clampBBox img b).x2 ≠ 0 := by
    intro h0
    apply h
    simp only [cropSize, h0, Nat.mul_zero, Nat.zero_mul]
  have hy : sliceLen img.height (clampBBox img b).y1 (clampBBox img b).y2 ≠ 0 := by
    intro h0
    apply h
    simp only [cropSize, h0, Nat.mul_zero, Nat.zero_mul]
  simp only [clampBBox] at hx hy ⊢
  refine ⟨le_max_left 0 b.x1, le_max_left 0 b.y1, min_le_left _ _, min_le_left _ _,
    fun hx2 => ?_, fun hy2 => ?_⟩
  · exact sliceLen_le_of_pos img.width _ _ (le_max_left 0 b.x1) (min_le_left _ _) hx2 hx
  · exact sliceLen_le_of_pos img.height _ _ (le_max_left 0 b.y1) (min_le_left _ _) hy2 hy

/-- Variant of `upload_faces_ok` phrased with the per-request environment. -/
theorem upload_env_ok (env : Env) (i : Nat) (bs : List Nat)
    (henc : (env.s3 i).encoded = some bs) (hput : (env.s3 i).putError = none) :
    upload_crop_to_s3 env.bucket env.region (env.s3 i) "faces" =
      ([objOf env i bs],
       .ok (publicBaseUrl env.bucket env.region ++ "/" ++ faceKey (env.s3 i))) := by
  rw [upload_faces_ok env.bucket env.region (env.s3 i) bs henc hput]
  rfl

/-- Detections whose clamped crop is empty are all skipped: the loop writes
nothing and assembles nothing. -/
theorem processLoop_all_skip (env : Env) (img : Img) :
    ∀ (dets : List Detection) (idx : Nat) (store : List S3Object),
      (∀ d ∈ dets, cropSize img (clampBBox img d.bbox) = 0) →
      processLoop env img dets idx store = (store, .ok []) := by
  intro dets
  induction dets with
  | nil => intro idx store _; rfl
  | cons face rest ih =>
    intro idx store hall
    rw [processLoop_cons_skip env img face rest idx store
      (hall face (List.mem_cons_self _ _))]
    exact ih (idx + 1) store (fun d hd => hall d (List.mem_cons_of_mem _ hd))

theorem specFaceIds_length (img : Img) :
    ∀ (dets : List Detection) (idx : Nat),
      (specFaceIds img dets idx).length =
        dets.length -
          (dets.filter fun d => cropSize img (clampBBox img d.bbox) == 0).length := by
  intro dets
  induction dets with
  | nil => intro idx; rfl
  | cons face rest ih =>
    intro idx
    have hK := List.length_filter_le
      (fun d => cropSize img (clampBBox img d.bbox) == 0) rest
    by_cases hc : cropSize img (clampBBox img face.bbox) = 0
    · have hb : (cropSize img (clampBBox img face.bbox) == 0) = true := by
        simp [hc]
      rw [specFaceIds, if_pos hc, List.filter_cons, if_pos hb, List.length_cons,
        List.length_cons, ih (idx + 1)]
      omega
    · have hb : ¬((cropSize img (clampBBox img face.bbox) == 0) = true) := by
        simp [hc]
      rw [specFaceIds, if_neg hc, List.filter_cons, if_neg hb, List.length_cons,
        List.length_cons, ih (idx + 1)]
      omega

/-- When every upload and every embedding read succeeds, the loop returns a
face list whose identifiers are exactly the positions of the detections
with non-empty clamped crops. -/
theorem processLoop_ok_of_stepOk (env : Env) (img : Img) :
    ∀ (dets : List Detection) (idx : Nat) (store : List S3Object),
      (∀ p ∈ dets.enumFrom idx, stepOk env p.1 p.2) →
      ∃ fs, (processLoop env img dets idx store).2 = .ok fs ∧
        fs.map FaceResult.face_id = specFaceIds img dets idx := by
  intro dets
  induction dets with
  | nil => intro idx store _; exact ⟨[], rfl, rfl⟩
  | cons face rest ih =>
    intro idx store hok
    have hhead : stepOk env idx face := hok (idx, face)
      (by rw [List.enumFrom_cons]; exact List.mem_cons_self _ _)
    have htail : ∀ p ∈ rest.enumFrom (idx + 1), stepOk env p.1 p.2 := fun p hp =>
      hok p (by rw [List.enumFrom_cons]; exact List.mem_cons_of_mem _ hp)
    by_cases hc : cropSize img (clampBBox img face.bbox) = 0
    · rw [processLoop_cons_skip env img face rest idx store hc]
      obtain ⟨fs, h1, h2⟩ := ih (idx + 1) store htail
      exact ⟨fs, h1, by simp [specFaceIds, hc, h2]⟩
    · obtain ⟨henc, hput, hemb⟩ := hhead
      obtain ⟨bs, hbs⟩ := Option.isSome_iff_exists.mp henc
      obtain ⟨emb, hembv⟩ : ∃ em, face.normed_embedding = .ok em := by
        cases hv : face.normed_embedding with
        | ok em => exact ⟨em, rfl⟩
        | error er => rw [hv] at hemb; simp [embOk] at hemb
      rw [processLoop_cons_ok env img face rest idx store _ _ emb hc
        (upload_env_ok env idx bs hbs hput) hembv]
      obtain ⟨fs, h1, h2⟩ := ih (idx + 1) (store ++ [objOf env idx bs]) htail
      cases hrec : processLoop env img rest (idx + 1) (store ++ [objOf env idx bs]) with
      | mk store2 res2 =>
        rw [hrec] at h1
        cases res2 with
        | error er => simp at h1
        | ok fs2 =>
          rw [Except.ok.injEq] at h1
          subst h1
          refine ⟨_, rfl, ?_⟩
          simp [specFaceIds, hc, h2]

/-- Every face the loop returns carries the clamped bounding box of some
detection whose clamped crop is non-empty. -/
theorem mem_processLoop_ok (env : Env) (img : Img) :
    ∀ (dets : List Detection) (idx : Nat) (store st : List S3Object)
      (fs : List FaceResult),
      processLoop env img dets idx store = (st, .ok fs) →
      ∀ f ∈ fs, ∃ b, f.bbox = clampBBox img b ∧ cropSize img (clampBBox img b) ≠ 0 := by
  intro dets
  induction dets with
  | nil =>
    intro idx store st fs h f hf
    rw [processLoop_nil, Prod.mk.injEq, Except.ok.injEq] at h
    rw [← h.2] at hf
    simp at hf
  | cons face rest ih =>
    intro idx store st fs h f hf
    by_cases hc : cropSize img (clampBBox img face.bbox) = 0
    · rw [processLoop_cons_skip env img face rest idx store hc] at h
      exact ih (idx + 1) store st fs h f hf
    · cases hu : upload_crop_to_s3 env.bucket env.region (env.s3 idx) "faces" with
      | mk objs res =>
        cases res with
        | error er =>
          rw [processLoop_cons_upload_err env img face rest idx store objs er hc hu,
            Prod.mk.injEq] at h
          exact absurd h.2 (by simp)
        | ok url =>
          cases he : face.normed_embedding with
          | error er =>
            rw [processLoop_cons_emb_err env img face rest idx store objs url er hc hu he,
              Prod.mk.injEq] at h
            exact absurd h.2 (by simp)
          | ok emb =>
            rw [processLoop_cons_ok env img face rest idx store objs url emb hc hu he] at h
            cases hrec : processLoop env img rest (idx + 1) (store ++ objs) with
            | mk store2 res2 =>
              rw [hrec] at h
              cases res2 with
              | error er => exact absurd (Prod.mk.injEq .. ▸ h).2 (by simp)
              | ok fs2 =>
                rw [Prod.mk.injEq, Except.ok.injEq] at h
                rw [← h.2] at hf
                rcases List.mem_cons.mp hf with hf1 | hf2
                · exact ⟨face.bbox, by rw [hf1], hc⟩
                · exact ih (idx + 1) (store ++ objs) store2 fs2 hrec f hf2

/-- If the loop reaches detection number `idx + pre.length`, uploads its
crop, and then fails to read its embedding, the raised message propagates
out of the loop while the uploaded object stays in the final bucket state. -/
theorem processLoop_emb_error (env : Env) (img : Img) (d : Detection)
    (post : List Detection) (bs : List Nat) (e : String) :
    ∀ (pre : List Detection) (idx : Nat) (store : List S3Object),
      (∀ p ∈ pre.enumFrom idx, detOk env img p) →
      cropSize img (clampBBox img d.bbox) ≠ 0 →
      (env.s3 (idx + pre.length)).encoded = some bs →
      (env.s3 (idx + pre.length)).putError = none →
      d.normed_embedding = .error e →
      (processLoop env img (pre ++ d :: post) idx store).2 = .error e ∧
        objOf env (idx + pre.length) bs ∈ (processLoop env img (pre ++ d :: post) idx store).1 := by
  intro pre
  induction pre with
  | nil =>
    intro idx store _ hcrop henc hput hemb
    rw [List.length_nil, Nat.add_zero] at henc hput ⊢
    rw [List.nil_append,
      processLoop_cons_emb_err env img d post idx store [objOf env idx bs] _ e hcrop
        (upload_env_ok env idx bs henc hput) hemb]
    exact ⟨rfl, by simp⟩
  | cons p pre ih =>
    intro idx store hpre hcrop henc hput hemb
    have hidx : idx + 1 + pre.length = idx + (p :: pre).length := by
      rw [List.length_cons]; omega
    have hp : detOk env img (idx, p) := hpre (idx, p)
      (by rw [List.enumFrom_cons]; exact List.mem_cons_self _ _)
    have htail : ∀ q ∈ pre.enumFrom (idx + 1), detOk env img q := fun q hq =>
      hpre q (by rw [List.enumFrom_cons]; exact List.mem_cons_of_mem _ hq)
    by_cases hskip : cropSize img (clampBBox img p.bbox) = 0
    · rw [List.cons_append,
        processLoop_cons_skip env img p (pre ++ d :: post) idx store hskip]
      have := ih (idx + 1) store htail hcrop (by rw [hidx]; exact henc)
        (by rw [hidx]; exact hput) hemb
      rw [hidx] at this
      exact this
    · have hstep : stepOk env idx p := (detOk.eq_def .. ▸ hp).resolve_left hskip
      obtain ⟨henc2, hput2, hembOk⟩ := hstep
      obtain ⟨bs2, hbs2⟩ := Option.isSome_iff_exists.mp henc2
      obtain ⟨emb2, hemb2⟩ : ∃ em, p.normed_embedding = .ok em := by
        cases hv : p.normed_embedding with
        | ok em => exact ⟨em, rfl⟩
        | error er => rw [hv] at hembOk; simp [embOk] at hembOk
      rw [List.cons_append,
        processLoop_cons_ok env img p (pre ++ d :: post) idx store _ _ emb2 hskip
          (upload_env_ok env idx bs2 hbs2 hput2) hemb2]
      have hrec := ih (idx + 1) (store ++ [objOf env idx bs2]) htail hcrop
        (by rw [hidx]; exact henc) (by rw [hidx]; exact hput) hemb
      rw [hidx] at hrec
      cases hpl : processLoop env img (pre ++ d :: post) (idx + 1) (store ++ [objOf env idx bs2]) with
      | mk store2 res2 =>
        rw [hpl] at hrec
        obtain ⟨h1, h2⟩ := hrec
        cases res2 with
        | error er =>
          rw [Except.error.injEq] at h1
          subst h1
          exact ⟨rfl, h2⟩
        | ok fs2 => exact absurd h1 (by simp)

/-- At least one detection and a well-formed request: the handler reduces to
the per-detection loop followed by the aggregation step. -/
theorem detect_faces_valid (imdecode : List Nat → Option Img)
    (analyze : Img → Except String (List Detection)) (env : Env) (req : Request)
    (img : Img) (dets : List Detection)
    (hct : badContentType req.content_type = false)
    (hbody : req.body ≠ [])
    (hdec : imdecode req.body = some img)
    (han : analyze img = .ok dets)
    (hne : dets ≠ []) :
    detect_faces imdecode analyze env req =
      match processLoop env img dets 0 [] with
      | (store, .error e) =>
        (store, .ok (.httpError 500
          ("Erro ao salvar rostos no S3 ou gerar embeddings: " ++ e)))
      | (store, .ok fs) =>
        (store, .ok (.jsonOk 200
          "Rostos detectados e embeddings gerados com InsightFace."
          fs.length fs)) := by
  have hlen : ¬(dets.length = 0) := fun h0 => hne (List.length_eq_zero.mp h0)
  simp only [detect_faces, read_image_from_bytes, hct, hbody, hdec, han, hlen,
    Bool.false_eq_true, if_false, ite_false, ne_eq, not_false_eq_true]

/-! Claim theorems. -/

/-- C4: for every valid image on which the analyzer yields zero detections,
the endpoint returns HTTP 200 with `faces_count = 0`, `faces = []` and the
message that no faces were found; the per-detection loop is never entered
and the outcome is not an error. -/
theorem C4_zero_detections_success (imdecode : List Nat → Option Img)
    (analyze : Img → Except String (List Detection)) (env : Env) (req : Request)
    (img : Img)
    (hct : badContentType req.content_type = false)
    (hbody : req.body ≠ [])
    (hdec : imdecode req.body = some img)
    (han : analyze img = .ok []) :
    detect_faces imdecode analyze env req =
      ([], .ok (.jsonOk 200 "Nenhum rosto detectado na imagem." 0 [])) := by
  simp only [detect_faces, read_image_from_bytes, hct, hbody, hdec, han,
    List.length_nil, Bool.false_eq_true, if_false, ite_false, ne_eq,
    not_false_eq_true, if_true, ite_true]

/-- C4 witness. -/
theorem C4_zero_detections_success_witness :
    detect_faces cDecode (fun _ => .ok []) cEnvOk cReq =
      ([], .ok (.jsonOk 200 "Nenhum rosto detectado na imagem." 0 [])) :=
  C4_zero_detections_success cDecode (fun _ => .ok []) cEnvOk cReq cImg
    (by decide) (by decide) rfl rfl

/-- C3: if any crop, publish or embedding step raises for any detection in
the loop, the whole request fails with HTTP 500 carrying only an error
message (no faces list), the face results assembled before the failure are
discarded, and the bucket state is exactly what the loop wrote (uploads are
not rolled back). -/
theorem C3_loop_failure_aborts_request (imdecode : List Nat → Option Img)
    (analyze : Img → Except String (List Detection)) (env : Env) (req : Request)
    (img : Img) (dets : List Detection) (st : List S3Object) (e : String)
    (hct : badContentType req.content_type = false)
    (hbody : req.body ≠ [])
    (hdec : imdecode req.body = some img)
    (han : analyze img = .ok dets)
    (hne : dets ≠ [])
    (hloop : processLoop env img dets 0 [] = (st, .error e)) :
    detect_faces imdecode analyze env req =
      (st, .ok (.httpError 500
        ("Erro ao salvar rostos no S3 ou gerar embeddings: " ++ e))) := by
  rw [detect_faces_valid imdecode analyze env req img dets hct hbody hdec han hne,
    hloop]

/-- C3 witness: an upload failure on the only detection. -/
theorem C3_loop_failure_aborts_request_witness :
    detect_faces cDecode (fun _ => .ok [cDetGood]) cEnvPutFail cReq =
      ([], .ok (.httpError 500
        ("Erro ao salvar rostos no S3 ou gerar embeddings: " ++
          "Falha ao fazer upload para S3: rede caiu"))) :=
  C3_loop_failure_aborts_request cDecode (fun _ => .ok [cDetGood]) cEnvPutFail cReq
    cImg [cDetGood] [] "Falha ao fazer upload para S3: rede caiu"
    (by decide) (by decide) rfl rfl (List.cons_ne_nil _ _) rfl

/-- C8: when the analyzer returns at least one detection but every clamped
crop is empty, the response is HTTP 200 with `faces_count = 0` and
`faces = []`, yet carries the faces-found-and-processed message, which
differs from the no-faces message. -/
theorem C8_all_skipped_keeps_processed_message (imdecode : List Nat → Option Img)
    (analyze : Img → Except String (List Detection)) (env : Env) (req : Request)
    (img : Img) (dets : List Detection)
    (hct : badContentType req.content_type = false)
    (hbody : req.body ≠ [])
    (hdec : imdecode req.body = some img)
    (han : analyze img = .ok dets)
    (hne : dets ≠ [])
    (hskip : ∀ d ∈ dets, cropSize img (clampBBox img d.bbox) = 0) :
    detect_faces imdecode analyze env req =
      ([], .ok (.jsonOk 200
        "Rostos detectados e embeddings gerados com InsightFace." 0 [])) ∧
    "Rostos detectados e embeddings gerados com InsightFace." ≠
      "Nenhum rosto detectado na imagem." := by
  refine ⟨?_, by decide⟩
  rw [detect_faces_valid imdecode analyze env req img dets hct hbody hdec han hne,
    processLoop_all_skip env img dets 0 [] hskip]
  rfl

/-- C8 witness. -/
theorem C8_all_skipped_keeps_processed_message_witness :
    detect_faces cDecode (fun _ => .ok [cDetSkip]) cEnvOk cReq =
      ([], .ok (.jsonOk 200
        "Rostos detectados e embeddings gerados com InsightFace." 0 [])) ∧
    "Rostos detectados e embeddings gerados com InsightFace." ≠
      "Nenhum rosto detectado na imagem." :=
  C8_all_skipped_keeps_processed_message cDecode (fun _ => .ok [cDetSkip]) cEnvOk cReq
    cImg [cDetSkip] (by decide) (by decide) rfl rfl (List.cons_ne_nil _ _)
    (by decide)

/-- C2: when every upload and embedding read succeeds, the response is a
200 whose count field equals the length of the returned face list, the
face identifiers are the original positions of the detections whose
clamped crop is non-empty (in analyzer order, with gaps at skips), and the
count is the number of detections minus the number of zero-area crops. -/
theorem C2_skips_leave_positional_gaps (imdecode : List Nat → Option Img)
    (analyze : Img → Except String (List Detection)) (env : Env) (req : Request)
    (img : Img) (dets : List Detection)
    (hct : badContentType req.content_type = false)
    (hbody : req.body ≠ [])
    (hdec : imdecode req.body = some img)
    (han : analyze img = .ok dets)
    (hne : dets ≠ [])
    (hok : ∀ p ∈ dets.enumFrom 0, stepOk env p.1 p.2) :
    ∃ st fs, detect_faces imdecode analyze env req =
        (st, .ok (.jsonOk 200
          "Rostos detectados e embeddings gerados com InsightFace."
          fs.length fs)) ∧
      fs.map FaceResult.face_id = specFaceIds img dets 0 ∧
      fs.length = dets.length -
        (dets.filter fun d => cropSize img (clampBBox img d.bbox) == 0).length := by
  obtain ⟨fs, h1, h2⟩ := processLoop_ok_of_stepOk env img dets 0 [] hok
  have hlen : fs.length = dets.length -
      (dets.filter fun d => cropSize img (clampBBox img d.bbox) == 0).length := by
    have hm : (fs.map FaceResult.face_id).length = fs.length := List.length_map _ _
    rw [h2, specFaceIds_length img dets 0] at hm
    omega
  cases hpl : processLoop env img dets 0 [] with
  | mk store res =>
    rw [hpl] at h1
    subst h1
    refine ⟨store, fs, ?_, h2, hlen⟩
    rw [detect_faces_valid imdecode analyze env req img dets hct hbody hdec han hne,
      hpl]

/-- C2 witness: two detections, the first skipped, the second kept with
`face_id = 1`. -/
theorem C2_skips_leave_positional_gaps_witness :
    ∃ st fs, detect_faces cDecode (fun _ => .ok [cDetSkip, cDetGood]) cEnvOk cReq =
        (st, .ok (.jsonOk 200
          "Rostos detectados e embeddings gerados com InsightFace."
          fs.length fs)) ∧
      fs.map FaceResult.face_id = specFaceIds cImg [cDetSkip, cDetGood] 0 ∧
      fs.length = [cDetSkip, cDetGood].length -
        ([cDetSkip, cDetGood].filter
          fun d => cropSize cImg (clampBBox cImg d.bbox) == 0).length :=
  C2_skips_leave_positional_gaps cDecode (fun _ => .ok [cDetSkip, cDetGood]) cEnvOk
    cReq cImg [cDetSkip, cDetGood] (by decide) (by decide) rfl rfl
    (List.cons_ne_nil _ _) (by decide)

/-- C10: the crop is published before the embedding is read, so when the
embedding read raises for a detection, the request fails with HTTP 500 and
the object uploaded for that very detection remains in the bucket state of
the response, while the detection itself is never returned. -/
theorem C10_upload_precedes_embedding_failure (imdecode : List Nat → Option Img)
    (analyze : Img → Except String (List Detection)) (env : Env) (req : Request)
    (img : Img) (pre : List Detection) (d : Detection) (post : List Detection)
    (bs : List Nat) (e : String)
    (hct : badContentType req.content_type = false)
    (hbody : req.body ≠ [])
    (hdec : imdecode req.body = some img)
    (han : analyze img = .ok (pre ++ d :: post))
    (hpre : ∀ p ∈ pre.enumFrom 0, detOk env img p)
    (hcrop : cropSize img (clampBBox img d.bbox) ≠ 0)
    (henc : (env.s3 pre.length).encoded = some bs)
    (hput : (env.s3 pre.length).putError = none)
    (hemb : d.normed_embedding = .error e) :
    (detect_faces imdecode analyze env req).2 =
      .ok (.httpError 500 ("Erro ao salvar rostos no S3 ou gerar embeddings: " ++ e)) ∧
    objOf env pre.length bs ∈ (detect_faces imdecode analyze env req).1 := by
  have hne : pre ++ d :: post ≠ [] := by simp
  have h := processLoop_emb_error env img d post bs e pre 0 [] hpre hcrop
    (by rw [Nat.zero_add]; exact henc) (by rw [Nat.zero_add]; exact hput) hemb
  rw [Nat.zero_add] at h
  rw [detect_faces_valid imdecode analyze env req img (pre ++ d :: post) hct hbody
    hdec han hne]
  cases hpl : processLoop env img (pre ++ d :: post) 0 [] with
  | mk store res =>
    rw [hpl] at h
    obtain ⟨h1, h2⟩ := h
    cases res with
    | error er =>
      rw [Except.error.injEq] at h1
      subst h1
      exact ⟨rfl, h2⟩
    | ok fs => exact absurd h1 (by simp)

/-- C10 witness: the first detection is skipped, the second uploads its
crop and then fails on the embedding read; the uploaded object is in the
final bucket state. -/
theorem C10_upload_precedes_embedding_failure_witness :
    (detect_faces cDecode (fun _ => .ok [cDetSkip, cDetEmbFail]) cEnvOk cReq).2 =
      .ok (.httpError 500
        ("Erro ao salvar rostos no S3 ou gerar embeddings: " ++ "embedding quebrou")) ∧
    objOf cEnvOk 1 [7] ∈
      (detect_faces cDecode (fun _ => .ok [cDetSkip, cDetEmbFail]) cEnvOk cReq).1 :=
  C10_upload_precedes_embedding_failure cDecode
    (fun _ => .ok [cDetSkip, cDetEmbFail]) cEnvOk cReq cImg [cDetSkip] cDetEmbFail
    [] [7] "embedding quebrou" (by decide) (by decide) rfl rfl (by decide)
    (by decide) rfl rfl rfl

/-- C1 counterexample: a detection whose truncated box has `x2 = -2` on a
10 by 10 image is returned (the negative bound makes the slice non-empty),
and its bounding box violates `0 ≤ x1 ≤ x2 ≤ width`, `0 ≤ y1 ≤ y2 ≤ height`. -/
theorem C1_counterexample :
    returnedFaces (detect_faces cDecode
        (fun _ => .ok [⟨⟨0, 0, -2, 10⟩, .ok [1, 2]⟩]) cEnvOk cReq) =
      [{ face_id := 0, bbox := ⟨0, 0, -2, 10⟩,
         entity_path := "https://b.s3.r.amazonaws.com/faces/5-face_5_abcd1234.jpg",
         embedding := [1, 2] }] ∧
    ¬ (∀ f ∈ returnedFaces (detect_faces cDecode
          (fun _ => .ok [⟨⟨0, 0, -2, 10⟩, .ok [1, 2]⟩]) cEnvOk cReq),
        0 ≤ f.bbox.x1 ∧ f.bbox.x1 ≤ f.bbox.x2 ∧ f.bbox.x2 ≤ (cImg.width : Int) ∧
        0 ≤ f.bbox.y1 ∧ f.bbox.y1 ≤ f.bbox.y2 ∧ f.bbox.y2 ≤ (cImg.height : Int)) := by
  constructor
  · rfl
  · decide

/-- C1 (amended): every face included in the response satisfies
`0 ≤ x1`, `0 ≤ y1`, `x2 ≤ width`, `y2 ≤ height`; the orderings `x1 ≤ x2`
and `y1 ≤ y2` additionally hold whenever the corresponding clamped upper
coordinate is non-negative (a negative `x2` or `y2` survives clamping and
can be returned below the lower coordinate). -/
theorem C1_returned_bbox_clamp_bounds (imdecode : List Nat → Option Img)
    (analyze : Img → Except String (List Detection)) (env : Env) (req : Request)
    (img : Img) (st : List S3Object) (s c : Nat) (m : String)
    (fs : List FaceResult)
    (hdec : imdecode req.body = some img)
    (hrun : detect_faces imdecode analyze env req = (st, .ok (.jsonOk s m c fs))) :
    ∀ f ∈ fs, 0 ≤ f.bbox.x1 ∧ 0 ≤ f.bbox.y1 ∧ f.bbox.x2 ≤ (img.width : Int) ∧
      f.bbox.y2 ≤ (img.height : Int) ∧ (0 ≤ f.bbox.x2 → f.bbox.x1 ≤ f.bbox.x2) ∧
      (0 ≤ f.bbox.y2 → f.bbox.y1 ≤ f.bbox.y2) := by
  rw [detect_faces] at hrun
  split at hrun
  · simp at hrun
  · split at hrun
    · simp at hrun
    · split at hrun
      · simp at hrun
      · rename_i img2 heq
        have himg : img2 = img := by
          rw [read_image_from_bytes, hdec, Except.ok.injEq] at heq
          exact heq.symm
        rw [himg] at hrun
        split at hrun
        · simp at hrun
        · rename_i dets hana
          split at hrun
          · rw [Prod.mk.injEq, Except.ok.injEq, Outcome.jsonOk.injEq] at hrun
            rw [← hrun.2.2.2.2]
            intro f hf
            simp at hf
          · split at hrun
            · simp at hrun
            · rename_i store fs2 hpl
              rw [Prod.mk.injEq, Except.ok.injEq, Outcome.jsonOk.injEq] at hrun
              rw [← hrun.2.2.2.2]
              intro f hf
              obtain ⟨b, hb, hcz⟩ :=
                mem_processLoop_ok env img dets 0 [] store fs2 hpl f hf
              rw [hb]
              exact clampBBox_bounds img b hcz

/-- C1 witness: an interior box on the concrete run satisfies the amended
bounds. -/
theorem C1_returned_bbox_clamp_bounds_witness :
    0 ≤ cFaceGood.bbox.x1 ∧ 0 ≤ cFaceGood.bbox.y1 ∧
      cFaceGood.bbox.x2 ≤ (cImg.width : Int) ∧
      cFaceGood.bbox.y2 ≤ (cImg.height : Int) ∧
      cFaceGood.bbox.x1 ≤ cFaceGood.bbox.x2 ∧
      cFaceGood.bbox.y1 ≤ cFaceGood.bbox.y2 := by
  have h := C1_returned_bbox_clamp_bounds cDecode (fun _ => .ok [cDetGood]) cEnvOk
    cReq cImg
    [⟨"b", "faces/5-face_5_abcd1234.jpg", [7], "image/jpeg", "public-read"⟩]
    200 1 "Rostos detectados e embeddings gerados com InsightFace." [cFaceGood]
    rfl rfl cFaceGood (List.mem_cons_self _ _)
  exact ⟨h.1, h.2.1, h.2.2.1, h.2.2.2.1, h.2.2.2.2.1 (by decide),
    h.2.2.2.2.2 (by decide)⟩

/-- C9: clamping is one-sided per coordinate (the lower corner is only
raised to 0, the upper corner only lowered to the dimension), and a
truncated box with negative `x2` yields a non-empty slice counted from the
right edge, so the detection is published and returned with `x2 < x1`. -/
theorem C9_negative_x2_slice_published :
    clampBBox cImg ⟨12, 0, -2, 15⟩ = ⟨12, 0, -2, 10⟩ ∧
    cropSize cImg (clampBBox cImg ⟨0, 0, -2, 10⟩) = 240 ∧
    detect_faces cDecode (fun _ => .ok [⟨⟨0, 0, -2, 10⟩, .ok [1, 2]⟩]) cEnvOk cReq =
      ([⟨"b", "faces/5-face_5_abcd1234.jpg", [7], "image/jpeg", "public-read"⟩],
       .ok (.jsonOk 200 "Rostos detectados e embeddings gerados com InsightFace." 1
         [{ face_id := 0, bbox := ⟨0, 0, -2, 10⟩,
            entity_path := "https://b.s3.r.amazonaws.com/faces/5-face_5_abcd1234.jpg",
            embedding := [1, 2] }])) ∧
    (-2 : Int) < 0 ∧ (-2 : Int) < 0 + 1 := by
  refine ⟨by decide, by decide, rfl, by decide, by decide⟩

/-- C6: a successful publish into the `faces` folder stores one object
under a key of the form `faces/{timestamp}-face_{timestamp}_{suffix}.jpg`,
with content type `image/jpeg` and ACL `public-read`, and returns the URL
obtained by concatenating the public base URL of the bucket and the key. -/
theorem C6_publish_key_format_and_url (bucket region : String) (call : S3Call)
    (bs : List Nat)
    (henc : call.encoded = some bs) (hput : call.putError = none) :
    upload_crop_to_s3 bucket region call "faces" =
      ([{ bucket := bucket,
          key := "faces/" ++ toString call.timestamp ++ "-face_" ++
            toString call.timestamp ++ "_" ++ call.suffix ++ ".jpg",
          body := bs, contentType := "image/jpeg", acl := "public-read" }],
       .ok (publicBaseUrl bucket region ++ "/" ++
         ("faces/" ++ toString call.timestamp ++ "-face_" ++
           toString call.timestamp ++ "_" ++ call.suffix ++ ".jpg"))) ∧
    ∃ rest, ("faces/" ++ toString call.timestamp ++ "-face_" ++
        toString call.timestamp ++ "_" ++ call.suffix ++ ".jpg") =
      "faces/" ++ rest := by
  refine ⟨?_, toString call.timestamp ++ ("-face_" ++ (toString call.timestamp ++
    ("_" ++ (call.suffix ++ ".jpg")))), by simp [String.append_assoc]⟩
  rw [upload_faces_ok bucket region call bs henc hput]
  rfl

/-- C6 witness. -/
theorem C6_publish_key_format_and_url_witness :
    upload_crop_to_s3 "b" "r" ⟨some [7], 5, "abcd1234", none⟩ "faces" =
      ([{ bucket := "b",
          key := "faces/" ++ toString (5 : Nat) ++ "-face_" ++ toString (5 : Nat) ++
            "_" ++ "abcd1234" ++ ".jpg",
          body := [7], contentType := "image/jpeg", acl := "public-read" }],
       .ok (publicBaseUrl "b" "r" ++ "/" ++
         ("faces/" ++ toString (5 : Nat) ++ "-face_" ++ toString (5 : Nat) ++
           "_" ++ "abcd1234" ++ ".jpg"))) ∧
    ∃ rest, ("faces/" ++ toString (5 : Nat) ++ "-face_" ++ toString (5 : Nat) ++
        "_" ++ "abcd1234" ++ ".jpg") = "faces/" ++ rest :=
  C6_publish_key_format_and_url "b" "r" ⟨some [7], 5, "abcd1234", none⟩ [7] rfl rfl

/-- C7 counterexample: an exception raised by the analyzer is not caught by
the handler and escapes untranslated, with no HTTP status assigned. -/
theorem C7_counterexample :
    detect_faces cDecode (fun _ => .error "analisador quebrou") cEnvOk cReq =
      ([], .error "analisador quebrou") ∧
    responseStatus (detect_faces cDecode (fun _ => .error "analisador quebrou")
      cEnvOk cReq) = none :=
  ⟨rfl, rfl⟩

/-- C7 (amended): errors raised inside the per-detection loop are caught
and translated to an HTTP 500 with a message, but a failure raised by the
analyzer during the analyze step escapes the handler untranslated. -/
theorem C7_analyzer_error_escapes (imdecode : List Nat → Option Img)
    (analyze : Img → Except String (List Detection)) (env : Env) (req : Request)
    (img : Img) (dets : List Detection) (e : String) (st : List S3Object) :
    (badContentType req.content_type = false → req.body ≠ [] →
      imdecode req.body = some img → analyze img = .error e →
      detect_faces imdecode analyze env req = ([], .error e)) ∧
    (badContentType req.content_type = false → req.body ≠ [] →
      imdecode req.body = some img → analyze img = .ok dets → dets ≠ [] →
      processLoop env img dets 0 [] = (st, .error e) →
      (detect_faces imdecode analyze env req).2 =
        .ok (.httpError 500
          ("Erro ao salvar rostos no S3 ou gerar embeddings: " ++ e))) := by
  constructor
  · intro hct hbody hdec han
    simp only [detect_faces, read_image_from_bytes, hct, hbody, hdec, han,
      Bool.false_eq_true, if_false, ite_false, ne_eq, not_false_eq_true]
  · intro hct hbody hdec han hne hloop
    rw [detect_faces_valid imdecode analyze env req img dets hct hbody hdec han hne,
      hloop]

/-- C7 witness: both halves instantiated on concrete runs. -/
theorem C7_analyzer_error_escapes_witness :
    detect_faces cDecode (fun _ => .error "analisador quebrou") cEnvOk cReq =
      ([], .error "analisador quebrou") ∧
    (detect_faces cDecode (fun _ => .ok [cDetGood]) cEnvPutFail cReq).2 =
      .ok (.httpError 500
        ("Erro ao salvar rostos no S3 ou gerar embeddings: " ++
          "Falha ao fazer upload para S3: rede caiu")) :=
  ⟨(C7_analyzer_error_escapes cDecode (fun _ => .error "analisador quebrou") cEnvOk
      cReq cImg [] "analisador quebrou" []).1 (by decide) (by decide) rfl rfl,
   (C7_analyzer_error_escapes cDecode (fun _ => .ok [cDetGood]) cEnvPutFail cReq
      cImg [cDetGood] "Falha ao fazer upload para S3: rede caiu" []).2
     (by decide) (by decide) rfl rfl (List.cons_ne_nil _ _) rfl⟩

/-- C5: the endpoint answers HTTP 400 exactly when the declared content
type is absent or not of the image family, the body is empty, or the bytes
do not decode; moreover on an empty body nothing is written to storage and
the whole response is independent of the analyzer and of the storage
environment (neither is invoked). -/
theorem C5_http400_iff_invalid_input (imdecode : List Nat → Option Img)
    (analyze : Img → Except String (List Detection)) (env : Env) (req : Request) :
    ((∃ d, (detect_faces imdecode analyze env req).2 = .ok (.httpError 400 d)) ↔
      (badContentType req.content_type = true ∨ req.body = [] ∨
        imdecode req.body = none)) ∧
    (req.body = [] → (detect_faces imdecode analyze env req).1 = [] ∧
      ∀ (analyze2 : Img → Except String (List Detection)) (env2 : Env),
        detect_faces imdecode analyze env req =
          detect_faces imdecode analyze2 env2 req) := by
  constructor
  · constructor
    · rintro ⟨d, hd⟩
      cases hct : badContentType req.content_type with
      | true => exact .inl rfl
      | false =>
        right
        by_cases hbody : req.body = []
        · exact .inl hbody
        · right
          cases hdeco : imdecode req.body with
          | none => rfl
          | some img =>
            exfalso
            cases han : analyze img with
            | error e =>
              have hred : detect_faces imdecode analyze env req = ([], .error e) := by
                simp only [detect_faces, read_image_from_bytes, hct, hbody, hdeco,
                  han, Bool.false_eq_true, if_false, ite_false, ne_eq,
                  not_false_eq_true]
              rw [hred] at hd
              simp at hd
            | ok dets =>
              cases dets with
              | nil =>
                have hred : detect_faces imdecode analyze env req =
                    ([], .ok (.jsonOk 200 "Nenhum rosto detectado na imagem." 0 [])) := by
                  simp only [detect_faces, read_image_from_bytes, hct, hbody, hdeco,
                    han, List.length_nil, Bool.false_eq_true, if_false, ite_false,
                    ne_eq, not_false_eq_true, if_true, ite_true]
                rw [hred] at hd
                simp at hd
              | cons d0 rest =>
                rw [detect_faces_valid imdecode analyze env req img (d0 :: rest)
                  hct hbody hdeco han (List.cons_ne_nil _ _)] at hd
                cases hpl : processLoop env img (d0 :: rest) 0 [] with
                | mk store res =>
                  rw [hpl] at hd
                  cases res with
                  | error e => simp at hd
                  | ok fs => simp at hd
    · rintro (hct | hbody | hdeco)
      · exact ⟨"Tipo de arquivo inválido. Envie uma imagem (image/*).",
          by simp only [detect_faces, hct, if_true, ite_true]⟩
      · cases hct : badContentType req.content_type with
        | true => exact ⟨"Tipo de arquivo inválido. Envie uma imagem (image/*).",
            by simp only [detect_faces, hct, if_true, ite_true]⟩
        | false => exact ⟨"Arquivo vazio.",
            by simp only [detect_faces, hct, hbody, Bool.false_eq_true, if_false,
              ite_false, if_true, ite_true]⟩
      · cases hct : badContentType req.content_type with
        | true => exact ⟨"Tipo de arquivo inválido. Envie uma imagem (image/*).",
            by simp only [detect_faces, hct, if_true, ite_true]⟩
        | false =>
          by_cases hbody : req.body = []
          · exact ⟨"Arquivo vazio.",
              by simp only [detect_faces, hct, hbody, Bool.false_eq_true, if_false,
                ite_false, if_true, ite_true]⟩
          · exact ⟨"Não foi possível decodificar a imagem.",
              by simp only [detect_faces, read_image_from_bytes, hct, hbody, hdeco,
                Bool.false_eq_true, if_false, ite_false, ne_eq, not_false_eq_true]⟩
  · intro hbody
    constructor
    · cases hct : badContentType req.content_type with
      | true => simp only [detect_faces, hct, if_true, ite_true]
      | false => simp only [detect_faces, hct, hbody, Bool.false_eq_true, if_false,
          ite_false, if_true, ite_true]
    · intro analyze2 env2
      cases hct : badContentType req.content_type with
      | true => simp only [detect_faces, hct, if_true, ite_true]
      | false => simp only [detect_faces, hct, hbody, Bool.false_eq_true, if_false,
          ite_false, if_true, ite_true]

/-- C5 witness: the whole statement instantiated on an empty-body request. -/
theorem C5_http400_iff_invalid_input_witness :
    ((∃ d, (detect_faces cDecode (fun _ => .ok []) cEnvOk
        ⟨some "image/png", []⟩).2 = .ok (.httpError 400 d)) ↔
      (badContentType (Request.content_type ⟨some "image/png", []⟩) = true ∨
        Request.body ⟨some "image/png", []⟩ = [] ∨
        cDecode (Request.body ⟨some "image/png", []⟩) = none)) ∧
    (Request.body ⟨some "image/png", []⟩ = [] →
      (detect_faces cDecode (fun _ => .ok []) cEnvOk ⟨some "image/png", []⟩).1 = [] ∧
      ∀ (analyze2 : Img → Except String (List Detection)) (env2 : Env),
        detect_faces cDecode (fun _ => .ok []) cEnvOk ⟨some "image/png", []⟩ =
          detect_faces cDecode analyze2 env2 ⟨some "image/png", []⟩) :=
  C5_http400_iff_invalid_input cDecode (fun _ => .ok []) cEnvOk ⟨some "image/png", []⟩

end MuralWorker
